import Mathlib

/-!
Shallow embedding of the core of the `manuals` harvesting pipeline
(`src/fetch_articles.py`, `src/llm_extractor.py`, `src/glm_client.py`,
`src/harvest_medrxiv.py`), together with theorems settling the frozen
claims about its specification.

Python strings are modelled as Lean `String` (a list of characters, which
matches Python's code-point indexing for the ASCII data handled here).
Values of Python's dynamic `dict`-or-`str` author/affiliation shapes are
modelled as tagged unions.  External regular-expression engine calls
(`re.search` / `re.findall`) and remote LLM calls are modelled as explicit
functional parameters, since they are third-party libraries or network
effects; all surrounding control flow is translated from the source.
-/

namespace Manuals

/-! ## Python string primitives -/

/-- Python `s[:n]` on a string: the first `n` code points. -/
def pySlice (s : String) (n : Nat) : String := ⟨s.data.take n⟩

/-- Python `s.strip()`: remove leading and trailing whitespace. -/
def pyStrip (s : String) : String :=
  ⟨((s.data.dropWhile Char.isWhitespace).reverse.dropWhile Char.isWhitespace).reverse⟩

/-- Python `s.strip('*')`: remove leading and trailing `'*'` characters. -/
def pyStripStar (s : String) : String :=
  ⟨((s.data.dropWhile (· = '*')).reverse.dropWhile (· = '*')).reverse⟩

/-- Python `s.lower()` (ASCII model). -/
def pyLower (s : String) : String := ⟨s.data.map Char.toLower⟩

/-- Python substring test `needle in hay`. -/
def strContainsSub (hay needle : String) : Bool := decide (needle.data <:+: hay.data)

/-- Split a character list at every delimiter character (one split point
per delimiter occurrence, like `str.split`/`re.split` at the character
level). -/
def splitChars (p : Char → Bool) : List Char → List (List Char)
  | [] => [[]]
  | c :: rest =>
    let r := splitChars p rest
    if p c then [] :: r
    else match r with
      | [] => [[c]]
      | h :: t => (c :: h) :: t

theorem length_pySlice_le (s : String) (n : Nat) : (pySlice s n).length ≤ n := by
  show (s.data.take n).length ≤ n
  simp [List.length_take]

theorem length_pyStrip_le (s : String) : (pyStrip s).length ≤ s.length := by
  show (((s.data.dropWhile _).reverse.dropWhile _).reverse).length ≤ s.data.length
  rw [List.length_reverse]
  calc ((s.data.dropWhile Char.isWhitespace).reverse.dropWhile Char.isWhitespace).length
      ≤ (s.data.dropWhile Char.isWhitespace).reverse.length :=
        (List.dropWhile_sublist _).length_le
    _ = (s.data.dropWhile Char.isWhitespace).length := List.length_reverse _
    _ ≤ s.data.length := (List.dropWhile_sublist _).length_le

/-! ## `fetch_articles.py`: data model -/

/-- An entry of a Python `authors` list: either a plain string or a dict.
For dict authors, absent string keys are modelled as `""` and absent
boolean keys as `false` (Python's `.get(key, default)`). -/
inductive PyAuthor
  | plainName (s : String)
  | record (name lastname firstname : String) (corresponding correspondingAuthor : Bool)
deriving DecidableEq, Repr

/-- An entry of a Python `affiliations` list: plain string or dict. -/
inductive PyAffil
  | plainName (s : String)
  | record (name institution : String)
deriving DecidableEq, Repr

/-- Display name of an author entry, as in
`author.get('name', '') or author.get('lastname', '') + ' ' + author.get('firstname', '')`
for dicts and `str(author)` for strings. -/
def authorDisplayName : PyAuthor → String
  | .plainName s => s
  | .record n ln fn _ _ => if n ≠ "" then n else ln ++ " " ++ fn

/-- Whether an author entry is flagged corresponding
(`fetch_articles.py`, lines 153-160). -/
def isCorrAuthor : PyAuthor → Bool
  | .plainName s =>
      decide ('*' ∈ s.data) || strContainsSub (pyLower s) "(corresponding)"
  | .record _ _ _ c ca => c || ca

/-- Display string of an affiliation entry
(`aff.get('name', '') or aff.get('institution', '')` for dicts). -/
def affilDisplay : PyAffil → String
  | .plainName s => s
  | .record n inst => if n ≠ "" then n else inst

/-- The affiliation-resolution step of `_extract_last_corresponding_author`
(lines 181-197): a valid positional index selects that entry, otherwise the
last entry is used; an empty list yields `""`.  The index is an `Int`
because the synthesized fallback author carries index `-1`. -/
def resolveAffiliation (affils : List PyAffil) (idx : Int) : String :=
  if affils.isEmpty then ""
  else if 0 ≤ idx ∧ idx < affils.length then
    match affils[idx.toNat]? with
    | some aff => affilDisplay aff
    | none => ""
  else match affils.getLast? with
    | some aff => affilDisplay aff
    | none => ""

/-- `ArticleFetcher._extract_last_corresponding_author` (lines 137-199):
collect all corresponding-flagged authors with their positions; if none,
synthesize the last author with index `-1` (empty author list returns
`("", "")`); pick the last candidate, strip `'*'` and whitespace from its
name, and resolve its affiliation. -/
def extract_last_corresponding_author
    (authors : List PyAuthor) (affils : List PyAffil) : String × String :=
  let candidates := authors.enum.filterMap (fun p =>
    if isCorrAuthor p.2 ∧ authorDisplayName p.2 ≠ "" then
      some ((p.1 : Int), authorDisplayName p.2)
    else none)
  let candidates :=
    if candidates.isEmpty then
      match authors.getLast? with
      | some (.record n ln fn _ _) =>
          [((-1 : Int), if n ≠ "" then n else ln ++ " " ++ fn)]
      | some (.plainName s) => [((-1 : Int), pyStrip (pyStripStar s))]
      | none => []
    else candidates
  match candidates.getLast? with
  | none => ("", "")
  | some (idx, nm) => (pyStrip (pyStripStar nm), resolveAffiliation affils idx)

/-- A standardized article dictionary as produced by the source adapters
(`RawRecord` in the spec). -/
structure Article where
  id : String
  title : String
  authors : List PyAuthor
  corresponding_author : String
  last_corresponding_author : String
  last_corresponding_affiliation : String
  affiliations : List PyAffil
  abstract : String
  published_at : String
  url : String
  source : String
deriving DecidableEq, Repr

/-! ## `fetch_articles.py`: deduplication -/

/-- The in-repo fallback `fuzz.ratio` used when `fuzzywuzzy` is not
installed (`fetch_articles.py`, lines 21-25): `100` on exact match, else
`0`.  The deduplicator is parametrized over the similarity oracle, since
the primary `fuzzywuzzy` implementation is an external library. -/
def fuzzFallbackScore (s1 s2 : String) : Nat := if s1 = s2 then 100 else 0

/-- `ArticleFetcher._normalize_title` (lines 537-543): lowercase, drop
punctuation (keep word characters and whitespace), collapse whitespace
runs to single spaces, strip.  ASCII model of `\w` and `\s`. -/
def normalize_title (title : String) : String :=
  let kept := (pyLower title).data.filter
    (fun c => c.isAlphanum || c = '_' || c.isWhitespace)
  let parts := (splitChars Char.isWhitespace kept).map String.mk
  String.intercalate " " (parts.filter (· ≠ ""))

/-- The per-source priority of `_deduplicate_articles` (line 491):
`{'biomodel': 0, 'medrxiv': 1, 'other': 2}.get(source, 2)`. -/
def sourcePriority (s : String) : Nat :=
  if s = "biomodel" then 0 else if s = "medrxiv" then 1 else 2

/-- The per-candidate checks of the dedup loop (lines 498-530): the
identifier check and registration, then the URL check and registration,
then the fuzzy-title comparison against the accepted output `acc`.
Returns the duplicate flag and the updated `seen` key set (the Python
`seen` dict keys identifiers and URLs together). -/
def dedupStep (sim : String → String → Nat) (seen : List String)
    (acc : List Article) (a : Article) : Bool × List String :=
  let tnorm := normalize_title a.title
  let s1 := if a.id ≠ "" then
      (if a.id ∈ seen then (true, seen) else (false, a.id :: seen))
    else (false, seen)
  let s2 := if ¬ s1.1 ∧ a.url ≠ "" then
      (if a.url ∈ s1.2 then (true, s1.2) else (false, a.url :: s1.2))
    else s1
  let dup := if ¬ s2.1 ∧ a.title ≠ "" then
      acc.any (fun b => 90 < sim tnorm (normalize_title b.title))
    else s2.1
  (dup, s2.2)

/-- One pass of the dedup loop (lines 497-533): the candidate is
appended to the output exactly when no check marked it duplicate. -/
def dedupGo (sim : String → String → Nat) :
    List String → List Article → List Article → List Article
  | _, acc, [] => acc
  | seen, acc, a :: rest =>
    let s := dedupStep sim seen acc a
    if s.1 then dedupGo sim s.2 acc rest
    else dedupGo sim s.2 (acc ++ [a]) rest

/-- The ordering used by the stable priority sort. -/
def prioLE (a b : Article) : Prop :=
  sourcePriority a.source ≤ sourcePriority b.source

instance : DecidableRel prioLE := fun a b =>
  inferInstanceAs (Decidable (sourcePriority a.source ≤ sourcePriority b.source))

instance : IsTotal Article prioLE := ⟨fun _ _ => Nat.le_total _ _⟩

instance : IsTrans Article prioLE := ⟨fun _ _ _ => Nat.le_trans⟩

/-- The stable priority sort at the head of `_deduplicate_articles`
(lines 490-495).  Python's `sorted` is a stable sort by the priority
key; `insertionSort` with a `≤` relation places each element before all
later equal-priority elements, which is exactly the stable sort. -/
def sortByPriority (articles : List Article) : List Article :=
  articles.insertionSort prioLE

/-- `ArticleFetcher._deduplicate_articles` (lines 481-535), parametrized
over the fuzzy-similarity oracle `sim` (`fuzz.ratio`). -/
def deduplicate_articles (sim : String → String → Nat)
    (articles : List Article) : List Article :=
  dedupGo sim [] [] (sortByPriority articles)

/-! ## `llm_extractor.py` -/

/-- The five-field structured result (`ExtractionResult` in the spec). -/
structure ExtractionResult where
  what_done : String
  ai_role : String
  models : String
  data_sources : String
  metrics : String
deriving DecidableEq, Repr

def emptyExtraction : ExtractionResult :=
  { what_done := "", ai_role := "", models := "", data_sources := "", metrics := "" }

/-- The external Python `re` engine, abstracted: `reSearch pat s` is the
first match's group 1 of `re.search(pat, s, re.IGNORECASE)` (with
`re.search(...).group(1)` for the given pattern), `reFindAll pat s` is
`re.findall(pat, s, re.IGNORECASE)`. -/
structure RegexEngine where
  reSearch : String → String → Option String
  reFindAll : String → String → List String

/-- The three patterns of `_extract_what_done` (lines 222-226). -/
def whatDonePatterns : List String :=
  ["(?:we|this study|this work|the study)\\s+([^.!?]+(?:investigated|analyzed|evaluated|examined|studied|assessed|compared|proposed|designed|implemented)[^.!?]+)",
   "(?:objective|aim|purpose|goal)[^.!?]*?:\\s*([^.!?]+)",
   "(?:background|introduction)[^.!?]*?:\\s*([^.!?]+)"]

/-- The four pattern groups of `_extract_models` (lines 258-263). -/
def modelPatterns : List String :=
  ["\\b(?:CNN|RNN|LSTM|GRU|BERT|GPT|ResNet|VGG|AlexNet|Inception|MobileNet|EfficientNet)\\b",
   "\\b(?:random forest|decision tree|support vector machine|SVM|logistic regression|linear regression)\\b",
   "\\b(?:gradient boosting|XGBoost|LightGBM|CatBoost)\\b",
   "\\b(?:k-means|clustering|PCA)\\b"]

/-- The two patterns of `_extract_data_sources` (lines 277-280). -/
def dataSourcePatterns : List String :=
  ["(?:dataset|data set|database|cohort|registry)[^.!?]*?(?:of|from|with)\\s+([^.!?]\x7b10,80\x7d)",
   "(?:using|from)\\s+(?:the\\s+)?([A-Z][A-Za-z\\s]+(?:dataset|database|registry|cohort))"]

/-- The keyword vocabulary of `_extract_ai_role` (lines 242-246). -/
def aiKeywords : List String :=
  ["artificial intelligence", "machine learning", "deep learning",
   "neural network", "ai", "ml", "algorithm", "model", "prediction",
   "classification", "detection", "diagnosis", "automated"]

/-- The metric vocabulary of `_extract_metrics` (lines 291-295). -/
def metricKeywords : List String :=
  ["accuracy", "precision", "recall", "F1", "AUC", "ROC",
   "sensitivity", "specificity", "AUROC", "RMSE", "MAE",
   "R-squared", "confusion matrix", "performance"]

/-- `re.split(r'[.!?]+', s)` on the character level.  (Python collapses
delimiter runs into one split point; the extra empty segments produced
here are skipped by every consumer, and the first segment agrees.) -/
def pySplitSentences (s : String) : List String :=
  (splitChars (fun c => c = '.' || c = '!' || c = '?') s.data).map String.mk

/-- `LLMExtractor._extract_what_done` (lines 219-238): first pattern
match's group 1 (stripped), else the first sentence (stripped). -/
def extract_what_done (re : RegexEngine) (abstract : String) : String :=
  match whatDonePatterns.findSome? (fun p => re.reSearch p abstract) with
  | some g => pyStrip g
  | none => pyStrip ((pySplitSentences abstract).headD "")

/-- `LLMExtractor._extract_ai_role` (lines 240-254): the first sentence
containing any AI keyword (substring test on the lowercased sentence). -/
def extract_ai_role (abstract : String) : String :=
  match (pySplitSentences abstract).find?
      (fun sent => aiKeywords.any (fun k => strContainsSub (pyLower sent) k)) with
  | some sent => pyStrip sent
  | none => ""

/-- `LLMExtractor._extract_models` (lines 256-272): all regex matches,
deduplicated (`set(...)`; Python's set iteration order is unspecified,
modelled as first-occurrence order) and joined by `', '`. -/
def extract_models (re : RegexEngine) (abstract : String) : String :=
  let found := modelPatterns.foldl (fun acc p => acc ++ re.reFindAll p abstract) []
  if found.isEmpty then "" else String.intercalate ", " found.eraseDups

/-- `LLMExtractor._extract_data_sources` (lines 274-287): group 1 of the
first pattern that matches, stripped. -/
def extract_data_sources (re : RegexEngine) (abstract : String) : String :=
  match dataSourcePatterns.findSome? (fun p => re.reSearch p abstract) with
  | some g => pyStrip g
  | none => ""

/-- `LLMExtractor._extract_metrics` (lines 289-306): every vocabulary
member occurring case-insensitively in the abstract, capped at 5, joined
by `', '`. -/
def extract_metrics (abstract : String) : String :=
  let low := pyLower abstract
  let ms := metricKeywords.filter (fun k => strContainsSub low (pyLower k))
  if ms.isEmpty then "" else String.intercalate ", " (ms.take 5)

/-- `LLMExtractor._heuristic_extract` (lines 184-217): assemble the five
fields with their per-field length caps (`[:2000]` / `[:500]`). -/
def heuristic_extract (re : RegexEngine) (abstract : String) : ExtractionResult :=
  { what_done := pySlice (extract_what_done re abstract) 2000
    ai_role := pySlice (extract_ai_role abstract) 2000
    models := pySlice (extract_models re abstract) 500
    data_sources := pySlice (extract_data_sources re abstract) 500
    metrics := pySlice (extract_metrics abstract) 500 }

/-- The extractor's environment: outcomes of the two remote tiers and the
regex engine for the heuristic tier.  `glm = some r` models a configured
GLM client whose call chain (request, JSON parse, validation; lines
62-69) succeeded with validated result `r`; `none` models "not
configured" or "raised an exception".  Likewise `openai` for the OpenAI
tier (lines 71-81, where a `None` result also falls through). -/
structure ExtractorEnv where
  glm : Option ExtractionResult
  openai : Option ExtractionResult
  engine : RegexEngine

/-- `LLMExtractor.extract` (lines 49-86): GLM tier, then OpenAI tier
(each returning `needs_manual_review = false` and no raw output on
success), then the heuristic tier with `needs_manual_review = true`. -/
def extract (env : ExtractorEnv) (abstract : String) :
    ExtractionResult × Bool × Option String :=
  match env.glm with
  | some r => (r, false, none)
  | none =>
    match env.openai with
    | some r => (r, false, none)
    | none => (heuristic_extract env.engine abstract, true, none)

/-! ## Retry loops (`fetch_articles.py` lines 545-611, `glm_client.py`
lines 44-117) -/

/-- The observable outcome of one HTTP attempt: a status code, or a
transport-level `requests.exceptions.RequestException`. -/
inductive HttpOutcome
  | status (code : Nat)
  | transportErr
deriving DecidableEq, Repr

/-- The observable behaviour of a retry loop run: `result = some code`
when the function returns a response (status `code`), `none` when it
raises; `attempts` counts HTTP requests issued; `sleeps` lists the
back-off delays slept, in order. -/
structure RetryTrace where
  result : Option Nat
  attempts : Nat
  sleeps : List Nat
deriving DecidableEq, Repr

/-- Status codes retried by both loops: `[429, 500, 502, 503, 504]`. -/
def isRetryableStatus (c : Nat) : Bool :=
  c = 429 ∨ c = 500 ∨ c = 502 ∨ c = 503 ∨ c = 504

/-- `ArticleFetcher._make_request_with_retry`'s loop body.  `responses`
gives the outcome of the attempt with index `idx`; `remaining` is
`max_retries - idx`.  Key detail faithfully carried over from the source:
`response.raise_for_status()` raises `requests.exceptions.HTTPError`,
which is a `RequestException` and is therefore caught by the loop's own
`except` handler — a non-retryable 4xx is handled exactly like a
transport failure. -/
def fetchRetryGo (responses : Nat → HttpOutcome) :
    Nat → Nat → Nat → List Nat → RetryTrace
  | 0, idx, _, sleeps => { result := none, attempts := idx, sleeps := sleeps }
  | remaining + 1, idx, delay, sleeps =>
    let retryOrRaise : RetryTrace :=
      if remaining ≠ 0 then
        fetchRetryGo responses remaining (idx + 1) (min (delay * 2) 32) (sleeps ++ [delay])
      else { result := none, attempts := idx + 1, sleeps := sleeps }
    match responses idx with
    | .transportErr => retryOrRaise
    | .status c =>
      if c = 200 then { result := some 200, attempts := idx + 1, sleeps := sleeps }
      else if isRetryableStatus c then retryOrRaise
      else if 400 ≤ c then retryOrRaise
      else { result := some c, attempts := idx + 1, sleeps := sleeps }

/-- `ArticleFetcher._make_request_with_retry` (lines 545-611) with its
default `max_retries = 5`, `initial_delay = 1`. -/
def make_request_with_retry (responses : Nat → HttpOutcome) : RetryTrace :=
  fetchRetryGo responses 5 0 1 []

/-- `GLMClient._make_request`'s loop body.  It differs from the fetcher's
loop in one reachable way: a non-200 success status (2xx/3xx) passes
`raise_for_status()` without being returned, so the loop silently moves
to the next attempt without sleeping. -/
def glmRetryGo (responses : Nat → HttpOutcome) :
    Nat → Nat → Nat → List Nat → RetryTrace
  | 0, idx, _, sleeps => { result := none, attempts := idx, sleeps := sleeps }
  | remaining + 1, idx, delay, sleeps =>
    let retryOrRaise : RetryTrace :=
      if remaining ≠ 0 then
        glmRetryGo responses remaining (idx + 1) (min (delay * 2) 32) (sleeps ++ [delay])
      else { result := none, attempts := idx + 1, sleeps := sleeps }
    match responses idx with
    | .transportErr => retryOrRaise
    | .status c =>
      if c = 200 then { result := some 200, attempts := idx + 1, sleeps := sleeps }
      else if isRetryableStatus c then retryOrRaise
      else if 400 ≤ c then retryOrRaise
      else glmRetryGo responses remaining (idx + 1) delay sleeps

/-- `GLMClient._make_request` (lines 44-117) with its default
`max_retries = 5`, `initial_delay = 1`. -/
def glm_make_request (responses : Nat → HttpOutcome) : RetryTrace :=
  glmRetryGo responses 5 0 1 []

/-! ## Source adapters (`fetch_articles.py` lines 254-294 and 357-404) -/

/-- A BioModel API response item (`item` in `_parse_biomodel_article`);
`none` models an absent dict key. -/
structure BiomodelItem where
  doi : Option String
  nativeId : Option String
  title : Option String
  authors : List PyAuthor
  affiliations : List PyAffil
  abstract : Option String
  published_at : Option String
  url : Option String

/-- The corresponding-author selection of `_parse_biomodel_article`
(lines 258-272): the first dict author flagged `corresponding` (its
`name`, possibly empty), falling back to the first author when that
leaves an empty string. -/
def biomodelCorrespondingAuthor (authors : List PyAuthor) : String :=
  let fromLoop := (authors.findSome? (fun a => match a with
    | .record n _ _ corr _ => if corr then some n else none
    | .plainName _ => none)).getD ""
  if fromLoop = "" then
    match authors.head? with
    | some (.record n _ _ _ _) => n
    | some (.plainName s) => s
    | none => ""
  else fromLoop

/-- `ArticleFetcher._parse_biomodel_article` (lines 254-294). -/
def parse_biomodel_article (item : BiomodelItem) : Article :=
  let lc := extract_last_corresponding_author item.authors item.affiliations
  { id := item.doi.getD (item.nativeId.getD "")
    title := item.title.getD ""
    authors := item.authors
    corresponding_author := biomodelCorrespondingAuthor item.authors
    last_corresponding_author := lc.1
    last_corresponding_affiliation := lc.2
    affiliations := item.affiliations
    abstract := item.abstract.getD ""
    published_at := item.published_at.getD ""
    url := item.url.getD (item.doi.getD "")
    source := "biomodel" }

/-- A feedparser RSS entry, reduced to the fields `_parse_rss_entry`
reads: `publishedAt` models the ISO string computed from
`entry.published_parsed` when present, `authorNames` the output of
`_parse_authors_from_rss`. -/
structure RssEntry where
  title : Option String
  link : Option String
  summary : Option String
  publishedAt : Option String
  authorNames : List String

/-- `ArticleFetcher._parse_rss_entry` (lines 357-391), parametrized over
the DOI regex search `re.search(r'10\.\d{4,}/[^\s]+', link)`. -/
def parse_rss_entry (doiSearch : String → Option String) (e : RssEntry) : Article :=
  let link := e.link.getD ""
  let doi := (doiSearch link).getD ""
  let authors := e.authorNames.map PyAuthor.plainName
  let lc := extract_last_corresponding_author authors []
  { id := if doi ≠ "" then doi else link
    title := e.title.getD ""
    authors := authors
    corresponding_author := lc.1
    last_corresponding_author := lc.1
    last_corresponding_affiliation := lc.2
    affiliations := []
    abstract := e.summary.getD ""
    published_at := e.publishedAt.getD ""
    url := link
    source := "medrxiv" }

/-- A medRxiv search-result entry, reduced to the fields
`_parse_search_result` reads from the BeautifulSoup `div`: the citation
title text, the author-link texts, and the `href` of the linked title
when present. -/
structure SearchResultDiv where
  title : Option String
  authorNames : List String
  href : Option String

/-- `ArticleFetcher._parse_search_result` (lines 438-479), parametrized
over the DOI regex search on the article URL. -/
def parse_search_result (doiSearch : String → Option String)
    (d : SearchResultDiv) : Article :=
  let url := match d.href with
    | some h => "https://www.medrxiv.org" ++ h
    | none => ""
  let doi := if url ≠ "" then (doiSearch url).getD "" else ""
  let authors := d.authorNames.map PyAuthor.plainName
  let lc := extract_last_corresponding_author authors []
  { id := if doi ≠ "" then doi else url
    title := d.title.getD ""
    authors := authors
    corresponding_author := lc.1
    last_corresponding_author := lc.1
    last_corresponding_affiliation := lc.2
    affiliations := []
    abstract := ""
    published_at := ""
    url := url
    source := "medrxiv" }

/-- One `PubmedArticle` element of the E-utilities XML, reduced to the
values the per-article body of `_parse_pubmed_xml` extracts: the title
and abstract texts, the `"{firstname} {lastname}"` author strings, the
affiliation texts, the assembled publication date, and the DOI/PMID
article identifiers (absent elements modelled as `none`). -/
structure PubmedArticleXml where
  title : Option String
  abstract : Option String
  authorNames : List String
  affiliations : List String
  publishedAt : Option String
  doi : Option String
  pmid : Option String

/-- The per-article body of `ArticleFetcher._parse_pubmed_xml`
(lines 713-780). -/
def parse_pubmed_article (x : PubmedArticleXml) : Article :=
  let authors := x.authorNames.map PyAuthor.plainName
  let affils := x.affiliations.map PyAffil.plainName
  let doi := x.doi.getD ""
  let pmid := x.pmid.getD ""
  let lc := extract_last_corresponding_author authors affils
  { id := if doi ≠ "" then doi else pmid
    title := x.title.getD ""
    authors := authors
    corresponding_author := lc.1
    last_corresponding_author := lc.1
    last_corresponding_affiliation := lc.2
    affiliations := affils
    abstract := x.abstract.getD ""
    published_at := x.publishedAt.getD ""
    url := if pmid ≠ "" then "https://pubmed.ncbi.nlm.nih.gov/" ++ pmid else ""
    source := "pubmed" }

/-- Python `s.replace('\n', ' ')`. -/
def pyReplaceNewline (s : String) : String :=
  ⟨s.data.map (fun c => if c = '\n' then ' ' else c)⟩

/-- Python `s.split('/')[-1]`. -/
def lastSlashComponent (s : String) : String :=
  (((splitChars (fun c => c = '/') s.data).map String.mk).getLast?).getD ""

/-- A feedparser arXiv entry, reduced to the fields `_parse_arxiv_entry`
reads. -/
structure ArxivEntry where
  title : Option String
  summary : Option String
  authorNames : List String
  publishedAt : Option String
  entryId : Option String
  link : Option String

/-- `ArticleFetcher._parse_arxiv_entry` (lines 850-892). -/
def parse_arxiv_entry (e : ArxivEntry) : Article :=
  let authors := e.authorNames.map PyAuthor.plainName
  let lc := extract_last_corresponding_author authors []
  { id := lastSlashComponent (e.entryId.getD "")
    title := pyReplaceNewline (e.title.getD "")
    authors := authors
    corresponding_author := lc.1
    last_corresponding_author := lc.1
    last_corresponding_affiliation := lc.2
    affiliations := []
    abstract := pyReplaceNewline (e.summary.getD "")
    published_at := e.publishedAt.getD ""
    url := e.link.getD ""
    source := "arxiv" }

/-! ## `harvest_medrxiv.py`: orchestrator (lines 107-152) -/

/-- A processed article: the raw record, the merged extraction fields,
the review flag and the raw LLM output
(`{**article, **extraction_result, 'needs_manual_review': ...,
'raw_llm_output': ...}`). -/
structure ProcessedArticle where
  article : Article
  extraction : ExtractionResult
  needs_manual_review : Bool
  raw_llm_output : Option String
deriving DecidableEq, Repr

/-- The persistent cache `self.cache`, keyed by article identifier. -/
abbrev Cache := List (String × ProcessedArticle)

/-- The per-article body of `MedRxivHarvester.harvest`'s loop (lines
110-147): cache hit short-circuits; otherwise a too-short abstract
short-circuits to an all-empty result with the review flag set; otherwise
the extraction engine runs.  Returns the processed article, the updated
cache, and whether `self.extractor.extract` was invoked. -/
def processArticle (env : ExtractorEnv) (cache : Cache) (a : Article) :
    ProcessedArticle × Cache × Bool :=
  match cache.lookup a.id with
  | some p => (p, cache, false)
  | none =>
    let step : ExtractionResult × Bool × Option String × Bool :=
      if a.abstract = "" ∨ (pyStrip a.abstract).length < 50 then
        (emptyExtraction, true, none, false)
      else
        let r := extract env a.abstract
        (r.1, r.2.1, r.2.2, true)
    let p : ProcessedArticle :=
      { article := a, extraction := step.1, needs_manual_review := step.2.1,
        raw_llm_output := step.2.2.1 }
    let cache' := if a.id = "" then cache else (a.id, p) :: cache
    (p, cache', step.2.2.2)

/-- The whole extraction loop over the fetched articles, threading the
cache and logging `(identifier, extractor invoked?)` per record. -/
def harvestLoop (env : ExtractorEnv) (cache : Cache) :
    List Article → List ProcessedArticle × Cache × List (String × Bool)
  | [] => ([], cache, [])
  | a :: rest =>
    let r1 := processArticle env cache a
    let r2 := harvestLoop env r1.2.1 rest
    (r1.1 :: r2.1, r2.2.1, (a.id, r1.2.2) :: r2.2.2)

/-! ## Theorems for the claims -/

/-- C1: `extract` always returns a complete five-field result (by the
`ExtractionResult` type) and never fails: when neither remote tier
succeeds it falls through to the heuristic tier, which always succeeds
with `needs_manual_review = true` and no raw output; when the primary
(GLM) or secondary (OpenAI) remote tier succeeds, it returns that tier's
result with `needs_manual_review = false`. -/
theorem C1_extract_tiered_fallback (env : ExtractorEnv) (abstract : String) :
    (env.glm = none → env.openai = none →
      extract env abstract = (heuristic_extract env.engine abstract, true, none))
    ∧ (∀ r, env.glm = some r → extract env abstract = (r, false, none))
    ∧ (∀ r, env.glm = none → env.openai = some r →
        extract env abstract = (r, false, none)) := by
  refine ⟨?_, ?_, ?_⟩ <;> intros <;> simp_all [extract]

def noMatchEngine : RegexEngine :=
  { reSearch := fun _ _ => none, reFindAll := fun _ _ => [] }

def sampleResult : ExtractionResult :=
  { what_done := "w", ai_role := "a", models := "m", data_sources := "d", metrics := "x" }

/-- C1, witnessed at concrete environments for each of the three tiers. -/
theorem C1_extract_tiered_fallback_witness :
    extract ⟨none, none, noMatchEngine⟩ "abc"
      = (heuristic_extract noMatchEngine "abc", true, none)
    ∧ extract ⟨some sampleResult, none, noMatchEngine⟩ "abc"
      = (sampleResult, false, none)
    ∧ extract ⟨none, some sampleResult, noMatchEngine⟩ "abc"
      = (sampleResult, false, none) :=
  ⟨(C1_extract_tiered_fallback ⟨none, none, noMatchEngine⟩ "abc").1 rfl rfl,
   (C1_extract_tiered_fallback ⟨some sampleResult, none, noMatchEngine⟩ "abc").2.1
     sampleResult rfl,
   (C1_extract_tiered_fallback ⟨none, some sampleResult, noMatchEngine⟩ "abc").2.2
     sampleResult rfl rfl⟩

/-- C4: evaluation of both retry loops on a permanently failing
non-retryable status (HTTP 404 on every attempt).  Contrary to the claim
(and to `glm_client.py`'s own comment "For other errors, raise
immediately"), the `HTTPError` raised by `raise_for_status()` is a
`RequestException` and is caught by the loops' own retry handler: all 5
attempts are consumed, with back-off sleeps of 1, 2, 4 and 8 seconds,
before the failure is surfaced. -/
theorem C4_status_404_consumes_all_retries :
    make_request_with_retry (fun _ => .status 404)
      = { result := none, attempts := 5, sleeps := [1, 2, 4, 8] }
    ∧ glm_make_request (fun _ => .status 404)
      = { result := none, attempts := 5, sleeps := [1, 2, 4, 8] } := by
  constructor <;> rfl

/-- C8: for every abstract (and any behaviour of the external regex
engine), the heuristic extractor returns all five fields as strings,
each within its length cap — 2000 for the two narrative fields, 500 for
the three compact fields.  Totality (it "never raises") is inherent: it
is a total function. -/
theorem C8_heuristic_total_and_capped (re : RegexEngine) (s : String) :
    (heuristic_extract re s).what_done.length ≤ 2000
    ∧ (heuristic_extract re s).ai_role.length ≤ 2000
    ∧ (heuristic_extract re s).models.length ≤ 500
    ∧ (heuristic_extract re s).data_sources.length ≤ 500
    ∧ (heuristic_extract re s).metrics.length ≤ 500 :=
  ⟨length_pySlice_le _ _, length_pySlice_le _ _, length_pySlice_le _ _,
   length_pySlice_le _ _, length_pySlice_le _ _⟩

/-- C7: a record whose abstract is empty or shorter than the 50-character
threshold never triggers the extraction engine, and (on a cache miss,
the path the claim describes) yields an all-empty `ExtractionResult`
with `needs_manual_review = true`. -/
theorem C7_short_abstract_short_circuit (env : ExtractorEnv) (cache : Cache)
    (a : Article) (h : a.abstract = "" ∨ a.abstract.length < 50) :
    (processArticle env cache a).2.2 = false
    ∧ (cache.lookup a.id = none →
        (processArticle env cache a).1.extraction = emptyExtraction
        ∧ (processArticle env cache a).1.needs_manual_review = true) := by
  have hg : a.abstract = "" ∨ (pyStrip a.abstract).length < 50 := by
    rcases h with h | h
    · exact Or.inl h
    · exact Or.inr (lt_of_le_of_lt (length_pyStrip_le _) h)
  constructor
  · cases hl : cache.lookup a.id <;> simp [processArticle, hl, hg]
  · intro hmiss
    simp [processArticle, hmiss, hg]

def plainHarvestEnv : ExtractorEnv := ⟨none, none, noMatchEngine⟩

def shortAbstractArticle : Article :=
  { id := "10.1101/short", title := "t", authors := [], corresponding_author := "",
    last_corresponding_author := "", last_corresponding_affiliation := "",
    affiliations := [], abstract := "too short", published_at := "", url := "u",
    source := "medrxiv" }

/-- C7, witnessed on a concrete record with a 9-character abstract. -/
theorem C7_short_abstract_short_circuit_witness :
    (processArticle plainHarvestEnv [] shortAbstractArticle).2.2 = false
    ∧ (processArticle plainHarvestEnv [] shortAbstractArticle).1.extraction
        = emptyExtraction
    ∧ (processArticle plainHarvestEnv [] shortAbstractArticle).1.needs_manual_review
        = true :=
  ⟨(C7_short_abstract_short_circuit plainHarvestEnv [] shortAbstractArticle
      (Or.inr (by decide))).1,
   (C7_short_abstract_short_circuit plainHarvestEnv [] shortAbstractArticle
      (Or.inr (by decide))).2 rfl⟩

theorem dropWhile_star_eq_self {l : List Char} (h : ∀ c ∈ l, c ≠ '*') :
    l.dropWhile (· = '*') = l := by
  cases l with
  | nil => rfl
  | cons c cs =>
    rw [List.dropWhile_cons]
    simp [h c (List.mem_cons_self c cs)]

theorem pyStripStar_eq_self {s : String} (h : ∀ c ∈ s.data, c ≠ '*') :
    pyStripStar s = s := by
  show (⟨((s.data.dropWhile _).reverse.dropWhile _).reverse⟩ : String) = s
  rw [dropWhile_star_eq_self h,
    dropWhile_star_eq_self (fun c hc => h c (List.mem_reverse.mp hc)),
    List.reverse_reverse]

theorem stripStar_concat_chars {l : List Char} (h : ∀ c ∈ l, c ≠ '*') :
    (((l ++ ['*']).dropWhile (· = '*')).reverse.dropWhile (· = '*')).reverse = l := by
  cases l with
  | nil => rfl
  | cons c cs =>
    have hc : ¬ (c = '*') := h c (List.mem_cons_self c cs)
    have h1 : ((c :: cs) ++ ['*']).dropWhile (· = '*') = c :: (cs ++ ['*']) := by
      rw [List.cons_append, List.dropWhile_cons]
      simp [hc]
    rw [h1]
    have h2 : (c :: (cs ++ ['*'])).reverse = '*' :: (cs.reverse ++ [c]) := by
      simp
    rw [h2, List.dropWhile_cons]
    have h3 : (cs.reverse ++ [c]).dropWhile (· = '*') = cs.reverse ++ [c] :=
      dropWhile_star_eq_self (fun x hx => by
        rcases List.mem_append.mp hx with hx | hx
        · exact h x (List.mem_cons_of_mem c (List.mem_reverse.mp hx))
        · rw [List.mem_singleton.mp hx]; exact hc)
    simp [h3]

theorem pyStripStar_append_star {s : String} (h : ∀ c ∈ s.data, c ≠ '*') :
    pyStripStar (s ++ "*") = s := by
  obtain ⟨d⟩ := s
  show (⟨(((d ++ ['*']).dropWhile _).reverse.dropWhile _).reverse⟩ : String) = ⟨d⟩
  rw [stripStar_concat_chars (by simpa using h)]

theorem string_append_star_data (c : String) : (c ++ "*").data = c.data ++ ['*'] := rfl

theorem string_append_star_ne (c : String) : c ++ "*" ≠ "" := by
  intro h
  have := congrArg String.data h
  rw [string_append_star_data] at this
  simp at this

theorem isCorrAuthor_append_star (c : String) :
    isCorrAuthor (.plainName (c ++ "*")) = true := by
  have hm : '*' ∈ (c ++ "*").data := by
    rw [string_append_star_data]
    exact List.mem_append_right _ (List.mem_singleton_self _)
  simp [isCorrAuthor, hm]

/-- C5: the Corresponding-Author Resolver on the three claim scenarios.
With authors `[A, B*, C*]` (B and C star-marked corresponding) and a
parallel three-entry affiliation list, it returns C's name (markers
stripped) and C's affiliation; with `[A, B, C]` and no corresponding
marks it falls back to the last author C, same affiliation; with an
empty author list it returns two empty strings. -/
theorem C5_resolver_scenarios (a b c x y z : String)
    (hstar : ∀ ch ∈ c.data, ch ≠ '*')
    (htrim : pyStrip c = c)
    (hA : isCorrAuthor (.plainName a) = false)
    (hB : isCorrAuthor (.plainName b) = false)
    (hC : isCorrAuthor (.plainName c) = false) :
    extract_last_corresponding_author
        [.plainName a, .plainName (b ++ "*"), .plainName (c ++ "*")]
        [.plainName x, .plainName y, .plainName z] = (c, z)
    ∧ extract_last_corresponding_author
        [.plainName a, .plainName b, .plainName c]
        [.plainName x, .plainName y, .plainName z] = (c, z)
    ∧ extract_last_corresponding_author []
        [.plainName x, .plainName y, .plainName z] = ("", "") := by
  refine ⟨?_, ?_, rfl⟩
  · have henum : [PyAuthor.plainName a, PyAuthor.plainName (b ++ "*"),
        PyAuthor.plainName (c ++ "*")].enum
        = [(0, PyAuthor.plainName a), (1, PyAuthor.plainName (b ++ "*")),
           (2, PyAuthor.plainName (c ++ "*"))] := rfl
    simp [extract_last_corresponding_author, henum, List.filterMap_cons,
      authorDisplayName, hA, isCorrAuthor_append_star,
      string_append_star_ne, pyStripStar_append_star hstar, htrim,
      resolveAffiliation, affilDisplay]
  · have henum : [PyAuthor.plainName a, PyAuthor.plainName b,
        PyAuthor.plainName c].enum
        = [(0, PyAuthor.plainName a), (1, PyAuthor.plainName b),
           (2, PyAuthor.plainName c)] := rfl
    simp [extract_last_corresponding_author, henum, List.filterMap_cons,
      authorDisplayName, hA, hB, hC,
      pyStripStar_eq_self hstar, htrim, resolveAffiliation, affilDisplay]

/-- C5, witnessed at a concrete author/affiliation configuration. -/
theorem C5_resolver_scenarios_witness :
    extract_last_corresponding_author
        [.plainName "Alice", .plainName ("Bob" ++ "*"), .plainName ("Carol" ++ "*")]
        [.plainName "U1", .plainName "U2", .plainName "U3"] = ("Carol", "U3")
    ∧ extract_last_corresponding_author
        [.plainName "Alice", .plainName "Bob", .plainName "Carol"]
        [.plainName "U1", .plainName "U2", .plainName "U3"] = ("Carol", "U3")
    ∧ extract_last_corresponding_author []
        [.plainName "U1", .plainName "U2", .plainName "U3"] = ("", "") :=
  C5_resolver_scenarios "Alice" "Bob" "Carol" "U1" "U2" "U3"
    (by decide) (by decide) (by decide) (by decide) (by decide)

theorem cache_lookup_cons_ne (cache : Cache) (k x : String)
    (v : ProcessedArticle) (h : x ≠ k) :
    ((k, v) :: cache).lookup x = cache.lookup x := by
  have hb : (x == k) = false := beq_eq_false_iff_ne.mpr h
  simp [List.lookup, hb]

theorem processArticle_hit (env : ExtractorEnv) (cache : Cache) (a : Article)
    (p : ProcessedArticle) (hp : cache.lookup a.id = some p) :
    processArticle env cache a = (p, cache, false) := by
  unfold processArticle
  rw [hp]

theorem processArticle_lookup_other (env : ExtractorEnv) (cache : Cache)
    (a : Article) (x : String) (h : x ≠ a.id) :
    ((processArticle env cache a).2.1).lookup x = cache.lookup x := by
  unfold processArticle
  cases hl : cache.lookup a.id with
  | some p => rfl
  | none =>
    by_cases hid : a.id = ""
    · simp [hid]
    · simp [hid, cache_lookup_cons_ne _ _ _ _ h]

theorem processArticle_lookup_self (env : ExtractorEnv) (cache : Cache)
    (a : Article) (h : a.id ≠ "") :
    ((processArticle env cache a).2.1).lookup a.id
      = some (processArticle env cache a).1 := by
  unfold processArticle
  cases hl : cache.lookup a.id with
  | some p => simpa using hl
  | none => simp [h]

theorem harvestLoop_countP_zero (env : ExtractorEnv) (x : String) :
    ∀ (l : List Article) (cache : Cache), (cache.lookup x).isSome →
    ((harvestLoop env cache l).2.2.countP (fun e => e.1 == x && e.2)) = 0 := by
  intro l
  induction l with
  | nil => intro cache _; simp [harvestLoop]
  | cons a rest ih =>
    intro cache hsome
    by_cases hax : a.id = x
    · obtain ⟨p, hp⟩ := Option.isSome_iff_exists.mp hsome
      rw [← hax] at hp
      have hstep : processArticle env cache a = (p, cache, false) :=
        processArticle_hit env cache a p hp
      simp only [harvestLoop, hstep, List.countP_cons]
      rw [ih cache hsome]
      simp
    · simp only [harvestLoop, List.countP_cons]
      have hpred : ((a.id == x) && (processArticle env cache a).2.2) = false := by
        simp [hax]
      rw [hpred]
      have : (((processArticle env cache a).2.1).lookup x).isSome := by
        rw [processArticle_lookup_other env cache a x (fun hh => hax hh.symm)]
        exact hsome
      rw [ih _ this]
      simp

theorem harvestLoop_countP_le_one (env : ExtractorEnv) (x : String) (hx : x ≠ "") :
    ∀ (l : List Article) (cache : Cache),
    ((harvestLoop env cache l).2.2.countP (fun e => e.1 == x && e.2)) ≤ 1 := by
  intro l
  induction l with
  | nil => intro cache; simp [harvestLoop]
  | cons a rest ih =>
    intro cache
    by_cases hax : a.id = x
    · cases hl : cache.lookup x with
      | some p =>
        have hstep : processArticle env cache a = (p, cache, false) := by
          unfold processArticle
          rw [hax, hl]
        simp only [harvestLoop, hstep, List.countP_cons]
        have := ih cache
        simpa using this
      | none =>
        have hself : (((processArticle env cache a).2.1).lookup x).isSome := by
          rw [← hax]
          rw [processArticle_lookup_self env cache a (by rw [hax]; exact hx)]
          rfl
        simp only [harvestLoop, List.countP_cons]
        rw [harvestLoop_countP_zero env x rest _ hself]
        split <;> omega
    · simp only [harvestLoop, List.countP_cons]
      have hpred : ((a.id == x) && (processArticle env cache a).2.2) = false := by
        simp [hax]
      rw [hpred]
      have := ih ((processArticle env cache a).2.1)
      simpa using this

/-- C6: the caching contract of the orchestrator loop.  A cache hit
returns the cached `ProcessedRecord` verbatim with no engine invocation;
a miss on a non-empty identifier writes the computed record keyed by that
identifier (an empty identifier skips the write); processing a second
record with the same non-empty identifier returns the first record's
result verbatim without invoking the engine; and over any run, the
engine is invoked at most once per non-empty identifier. -/
theorem C6_cache_idempotence (env : ExtractorEnv) (cache : Cache)
    (a b : Article) (l : List Article) (x : String) :
    (∀ p, cache.lookup a.id = some p → processArticle env cache a = (p, cache, false))
    ∧ (a.id ≠ "" → cache.lookup a.id = none →
        (processArticle env cache a).2.1
          = (a.id, (processArticle env cache a).1) :: cache)
    ∧ (a.id = "" → (processArticle env cache a).2.1 = cache)
    ∧ (b.id = a.id → a.id ≠ "" →
        processArticle env ((processArticle env cache a).2.1) b
          = ((processArticle env cache a).1, (processArticle env cache a).2.1, false))
    ∧ (x ≠ "" →
        ((harvestLoop env cache l).2.2.countP (fun e => e.1 == x && e.2)) ≤ 1) := by
  refine ⟨?_, ?_, ?_, ?_, ?_⟩
  · intro p hp
    exact processArticle_hit env cache a p hp
  · intro hne hmiss
    conv_lhs => unfold processArticle
    rw [hmiss]
    simp [hne]
    conv_rhs => unfold processArticle
    rw [hmiss]
  · intro hempty
    unfold processArticle
    cases hl : cache.lookup a.id with
    | some p => rfl
    | none => simp [hempty]
  · intro hba hne
    have hl : ((processArticle env cache a).2.1).lookup b.id
        = some (processArticle env cache a).1 := by
      rw [hba]
      exact processArticle_lookup_self env cache a hne
    exact processArticle_hit env _ b _ hl
  · intro hx
    exact harvestLoop_countP_le_one env x hx l cache

def cachedArticleA : Article :=
  { id := "10.1101/dup", title := "first", authors := [], corresponding_author := "",
    last_corresponding_author := "", last_corresponding_affiliation := "",
    affiliations := [], abstract := "", published_at := "", url := "u1",
    source := "medrxiv" }

def cachedArticleB : Article :=
  { cachedArticleA with title := "second, same identifier", url := "u2" }

/-- C6, witnessed: processing two records with the same identifier from
an empty cache returns the first result verbatim the second time with no
engine invocation, and the run's invocation log fires at most once for
that identifier. -/
theorem C6_cache_idempotence_witness :
    processArticle plainHarvestEnv
        ((processArticle plainHarvestEnv [] cachedArticleA).2.1) cachedArticleB
      = ((processArticle plainHarvestEnv [] cachedArticleA).1,
         (processArticle plainHarvestEnv [] cachedArticleA).2.1, false)
    ∧ ((harvestLoop plainHarvestEnv [] [cachedArticleA, cachedArticleB]).2.2.countP
        (fun e => e.1 == "10.1101/dup" && e.2)) ≤ 1 :=
  ⟨(C6_cache_idempotence plainHarvestEnv [] cachedArticleA cachedArticleB
      [cachedArticleA, cachedArticleB] "10.1101/dup").2.2.2.1 rfl (by decide),
   (C6_cache_idempotence plainHarvestEnv [] cachedArticleA cachedArticleB
      [cachedArticleA, cachedArticleB] "10.1101/dup").2.2.2.2 (by decide)⟩

/-- Shorthand for building an adapter record with the fields the
deduplicator inspects. -/
def keyArticle (i t u s : String) : Article :=
  { id := i, title := t, authors := [], corresponding_author := "",
    last_corresponding_author := "", last_corresponding_affiliation := "",
    affiliations := [], abstract := "", published_at := "", url := u,
    source := s }

theorem dedupStep_seen_id (sim : String → String → Nat) (seen : List String)
    (acc : List Article) (a : Article) (hne : a.id ≠ "") (hmem : a.id ∈ seen) :
    dedupStep sim seen acc a = (true, seen) := by
  simp [dedupStep, hne, hmem]

theorem dedupGo_drop_all (sim : String → String → Nat) (x : String) (hx : x ≠ "") :
    ∀ (rest : List Article) (seen : List String) (acc : List Article),
    (∀ a ∈ rest, a.id = x) → x ∈ seen →
    dedupGo sim seen acc rest = acc := by
  intro rest
  induction rest with
  | nil => intro seen acc _ _; rfl
  | cons a rest ih =>
    intro seen acc hall hmem
    have ha : a.id = x := hall a (List.mem_cons_self a rest)
    have hstep : dedupStep sim seen acc a = (true, seen) :=
      dedupStep_seen_id sim seen acc a (by rw [ha]; exact hx) (by rw [ha]; exact hmem)
    simp only [dedupGo, hstep]
    exact ih seen acc (fun b hb => hall b (List.mem_cons_of_mem a hb)) hmem

theorem dedupStep_first_accept (sim : String → String → Nat) (a : Article)
    (hne : a.id ≠ "") (hau : a.url ≠ a.id) :
    dedupStep sim [] [] a
      = (false, if a.url = "" then [a.id] else [a.url, a.id]) := by
  by_cases hu : a.url = "" <;> simp [dedupStep, hne, hu, hau]

/-- C2 (amended): when every input record carries the same non-empty
identifier, deduplication keeps exactly the head of the priority-sorted
input — provided that head's URL differs from the shared identifier
(otherwise the shared `seen` dict of identifiers and URLs drops even the
winner) — unchanged, and that head has maximal source priority. -/
theorem C2_dedup_same_identifier (sim : String → String → Nat)
    (l : List Article) (x : String) (h : Article) (t : List Article)
    (hx : x ≠ "") (hall : ∀ a ∈ l, a.id = x)
    (hsort : sortByPriority l = h :: t) (hurl : h.url ≠ x) :
    deduplicate_articles sim l = [h]
    ∧ ∀ a ∈ l, sourcePriority h.source ≤ sourcePriority a.source := by
  have hmem : ∀ a ∈ h :: t, a.id = x := by
    intro a ha
    refine hall a ?_
    have : a ∈ sortByPriority l := by rw [hsort]; exact ha
    exact (List.mem_insertionSort prioLE).mp this
  have hhid : h.id = x := hmem h (List.mem_cons_self h t)
  have hidne : h.id ≠ "" := by rw [hhid]; exact hx
  have hau : h.url ≠ h.id := by rw [hhid]; exact hurl
  constructor
  · show dedupGo sim [] [] (sortByPriority l) = [h]
    rw [hsort]
    have hstep := dedupStep_first_accept sim h hidne hau
    simp only [dedupGo, hstep, List.nil_append]
    refine dedupGo_drop_all sim x hx t _ [h]
      (fun b hb => hmem b (List.mem_cons_of_mem h hb)) ?_
    by_cases hu : h.url = "" <;> simp [hu, ← hhid]
  · have hpair : (h :: t).Pairwise prioLE := by
      rw [← hsort]
      exact List.sorted_insertionSort prioLE l
    intro a ha
    have : a ∈ h :: t := by
      rw [← hsort]
      exact (List.mem_insertionSort prioLE).mpr ha
    rcases List.mem_cons.mp this with rfl | hat
    · exact Nat.le_refl _
    · exact (List.pairwise_cons.mp hpair).1 a hat

def c2X : Article := keyArticle "a" "t" "u1" "biomodel"

def c2Y : Article := keyArticle "d" "t" "u2" "medrxiv"

def c2Z : Article := keyArticle "d" "s" "u3" "pubmed"

/-- C2 counterexample against the claim as stated: `c2Y` (medrxiv) and
`c2Z` (pubmed) share the non-empty identifier `"d"`, yet the output
retains neither of them — `c2Y` is eliminated by a fuzzy-title match
against the unrelated record `c2X`, after which its registration of
`"d"` in the seen set also eliminates `c2Z`.  The claim promised exactly
one record with identifier `"d"` (the medrxiv version) would survive. -/
theorem C2_counterexample :
    c2Y.id = "d" ∧ c2Z.id = "d" ∧ c2Y.id ≠ "" ∧ c2Y.source = "medrxiv"
    ∧ deduplicate_articles fuzzFallbackScore [c2X, c2Y, c2Z] = [c2X]
    ∧ (deduplicate_articles fuzzFallbackScore [c2X, c2Y, c2Z]).countP
        (fun r => r.id == "d") = 0 := by
  refine ⟨rfl, rfl, by decide, rfl, by decide, by decide⟩

def c2wA : Article := keyArticle "10.1/x" "ta" "u1" "biomodel"

def c2wB : Article := keyArticle "10.1/x" "tb" "u2" "medrxiv"

def c2wC : Article := keyArticle "10.1/x" "tc" "u3" "pubmed"

/-- C2, witnessed on the claim's own scenario: three records from three
different sources with an identical DOI collapse to the highest-priority
(biomodel) version. -/
theorem C2_dedup_same_identifier_witness :
    deduplicate_articles fuzzFallbackScore [c2wC, c2wB, c2wA] = [c2wA]
    ∧ ∀ a ∈ [c2wC, c2wB, c2wA],
        sourcePriority c2wA.source ≤ sourcePriority a.source :=
  C2_dedup_same_identifier fuzzFallbackScore [c2wC, c2wB, c2wA] "10.1/x"
    c2wA [c2wB, c2wC] (by decide) (by decide) (by decide) (by decide)

/-- C3 (amended): for a pair of records in priority order whose
identifiers and URLs are non-empty and pairwise distinct as a set of
four keys (so the shared identifier/URL seen-dict causes no cross
collision): a normalized-title similarity strictly above the 90
threshold collapses the pair to the earlier record, while a similarity
of at most 90 (including exactly 90) lets both survive. -/
theorem C3_fuzzy_title_threshold (sim : String → String → Nat) (A B : Article)
    (hA : A.id ≠ "") (hB : B.id ≠ "") (hAu : A.url ≠ "") (hBu : B.url ≠ "")
    (hid : B.id ≠ A.id) (hu : B.url ≠ A.url)
    (hA2 : A.url ≠ A.id) (hB2 : B.url ≠ B.id)
    (hc1 : B.id ≠ A.url) (hc2 : B.url ≠ A.id)
    (hord : sourcePriority A.source ≤ sourcePriority B.source) :
    (B.title ≠ "" →
      90 < sim (normalize_title B.title) (normalize_title A.title) →
      deduplicate_articles sim [A, B] = [A])
    ∧ (sim (normalize_title B.title) (normalize_title A.title) ≤ 90 →
      deduplicate_articles sim [A, B] = [A, B]) := by
  have hsort : sortByPriority [A, B] = [A, B] := by
    simp [sortByPriority, List.insertionSort, List.orderedInsert, prioLE, hord]
  constructor
  · intro hTB hsim
    show dedupGo sim [] [] (sortByPriority [A, B]) = [A]
    rw [hsort]
    simp [dedupGo, dedupStep, hA, hAu, hA2, hB, hBu, hB2, hid, hu, hc1, hc2, hTB, hsim]
  · intro hsim
    have hnot : ¬ (90 < sim (normalize_title B.title) (normalize_title A.title)) :=
      Nat.not_lt.mpr hsim
    show dedupGo sim [] [] (sortByPriority [A, B]) = [A, B]
    rw [hsort]
    simp [dedupGo, dedupStep, hA, hAu, hA2, hB, hBu, hB2, hid, hu, hc1, hc2, hnot]

def c3A : Article := keyArticle "k1" "alpha" "k2" "biomodel"

def c3B : Article := keyArticle "k2" "beta" "k3" "medrxiv"

def c3C : Article := keyArticle "i1" "title c" "v1" "biomodel"

def c3D : Article := keyArticle "i2" "title d" "v2" "medrxiv"

/-- C3 counterexample against the claim as stated, in both directions.
First: `c3A` and `c3B` have distinct non-empty identifiers and distinct
non-empty URLs and thoroughly dissimilar titles, yet `c3B` is dropped —
its identifier `"k2"` equals `c3A`'s URL, and the dedup `seen` dict keys
identifiers and URLs together.  Second: with a similarity oracle that
returns exactly 90 (attainable for distinct titles by the edit-distance
ratio), two records with ≥90%-similar titles both survive, because the
code requires similarity strictly greater than 90. -/
theorem C3_counterexample :
    (c3A.id ≠ c3B.id ∧ c3A.id ≠ "" ∧ c3B.id ≠ ""
      ∧ c3A.url ≠ c3B.url ∧ c3A.url ≠ "" ∧ c3B.url ≠ ""
      ∧ fuzzFallbackScore (normalize_title c3B.title) (normalize_title c3A.title) < 90
      ∧ deduplicate_articles fuzzFallbackScore [c3A, c3B] = [c3A])
    ∧ (c3C.id ≠ c3D.id ∧ c3C.id ≠ "" ∧ c3D.id ≠ ""
      ∧ c3C.url ≠ c3D.url ∧ c3C.url ≠ "" ∧ c3D.url ≠ ""
      ∧ deduplicate_articles (fun _ _ => 90) [c3C, c3D] = [c3C, c3D]) := by
  refine ⟨by decide, by decide⟩

def c3wA : Article := keyArticle "m1" "Deep learning for X!" "w1" "biomodel"

def c3wB : Article := keyArticle "m2" "Deep Learning for X" "w2" "medrxiv"

def c3wC : Article := keyArticle "m3" "An entirely different study" "w3" "biomodel"

def c3wD : Article := keyArticle "m4" "Deep learning for Y" "w4" "medrxiv"

/-- C3, witnessed with the in-repo fallback similarity: two records whose
titles normalize identically (score 100 > 90) collapse to the earlier
one, and two records with dissimilar titles (score 0 ≤ 90) both
survive. -/
theorem C3_fuzzy_title_threshold_witness :
    deduplicate_articles fuzzFallbackScore [c3wA, c3wB] = [c3wA]
    ∧ deduplicate_articles fuzzFallbackScore [c3wC, c3wD] = [c3wC, c3wD] :=
  ⟨(C3_fuzzy_title_threshold fuzzFallbackScore c3wA c3wB
      (by decide) (by decide) (by decide) (by decide) (by decide) (by decide)
      (by decide) (by decide) (by decide) (by decide) (by decide)).1
      (by decide) (by decide),
   (C3_fuzzy_title_threshold fuzzFallbackScore c3wC c3wD
      (by decide) (by decide) (by decide) (by decide) (by decide) (by decide)
      (by decide) (by decide) (by decide) (by decide) (by decide)).2
      (by decide)⟩

/-- A record whose identifier, URL and title are all empty: no dedup
check can ever fire on it. -/
def emptyKeyFields (a : Article) : Bool :=
  a.id == "" && a.url == "" && a.title == ""

theorem dedupStep_empty_fields (sim : String → String → Nat) (seen : List String)
    (acc : List Article) (a : Article)
    (hI : a.id = "") (hU : a.url = "") (hT : a.title = "") :
    dedupStep sim seen acc a = (false, seen) := by
  simp [dedupStep, hI, hU, hT]

theorem dedupGo_countP_empty (sim : String → String → Nat) :
    ∀ (rest : List Article) (seen : List String) (acc : List Article),
    (dedupGo sim seen acc rest).countP emptyKeyFields
      = acc.countP emptyKeyFields + rest.countP emptyKeyFields := by
  intro rest
  induction rest with
  | nil => intro seen acc; simp [dedupGo]
  | cons a rest ih =>
    intro seen acc
    by_cases hE : emptyKeyFields a = true
    · obtain ⟨⟨hI, hU⟩, hT⟩ : (a.id = "" ∧ a.url = "") ∧ a.title = "" := by
        simpa [emptyKeyFields] using hE
      simp only [dedupGo, dedupStep_empty_fields sim seen acc a hI hU hT]
      simp only [Bool.false_eq_true, if_false, ih, List.countP_append,
        List.countP_cons, hE]
      simp
      omega
    · have hEf : emptyKeyFields a = false := by simpa using hE
      simp only [dedupGo]
      cases hs : (dedupStep sim seen acc a).1
      · simp only [hs, Bool.false_eq_true, if_false, ih, List.countP_append,
          List.countP_cons, hEf]
        simp
      · simp only [hs, if_true, ih, List.countP_cons, hEf]
        simp
  
theorem dedupGo_mem_acc (sim : String → String → Nat) (a : Article) :
    ∀ (rest : List Article) (seen : List String) (acc : List Article),
    a ∈ acc → a ∈ dedupGo sim seen acc rest := by
  intro rest
  induction rest with
  | nil => intro seen acc h; exact h
  | cons b rest ih =>
    intro seen acc h
    simp only [dedupGo]
    cases hs : (dedupStep sim seen acc b).1
    · simp only [hs, Bool.false_eq_true, if_false]
      exact ih _ _ (List.mem_append_left _ h)
    · simp only [hs, if_true]
      exact ih _ _ h

theorem dedupGo_mem_empty (sim : String → String → Nat) (a : Article)
    (hE : emptyKeyFields a = true) :
    ∀ (rest : List Article) (seen : List String) (acc : List Article),
    a ∈ rest → a ∈ dedupGo sim seen acc rest := by
  obtain ⟨⟨hI, hU⟩, hT⟩ : (a.id = "" ∧ a.url = "") ∧ a.title = "" := by
    simpa [emptyKeyFields] using hE
  intro rest
  induction rest with
  | nil => intro seen acc h; exact absurd h (List.not_mem_nil a)
  | cons b rest ih =>
    intro seen acc h
    rcases List.mem_cons.mp h with rfl | hrest
    · simp only [dedupGo, dedupStep_empty_fields sim seen acc a hI hU hT]
      simp only [Bool.false_eq_true, if_false]
      exact dedupGo_mem_acc sim a rest _ _
        (List.mem_append_right _ (List.mem_singleton_self a))
    · simp only [dedupGo]
      cases hs : (dedupStep sim seen acc b).1
      · simp only [hs, Bool.false_eq_true, if_false]
        exact ih _ _ hrest
      · simp only [hs, if_true]
        exact ih _ _ hrest

/-- C10: records whose identifier, URL and title are all empty are never
collapsed — deduplication preserves their multiplicity exactly and
retains each of them, whatever the other records look like. -/
theorem C10_empty_key_records_retained (sim : String → String → Nat)
    (l : List Article) :
    (deduplicate_articles sim l).countP emptyKeyFields = l.countP emptyKeyFields
    ∧ ∀ a ∈ l, emptyKeyFields a = true → a ∈ deduplicate_articles sim l := by
  constructor
  · show (dedupGo sim [] [] (sortByPriority l)).countP emptyKeyFields = _
    rw [dedupGo_countP_empty]
    simp only [List.countP_nil, Nat.zero_add]
    exact (List.perm_insertionSort prioLE l).countP_eq _
  · intro a ha hE
    exact dedupGo_mem_empty sim a hE _ _ _ ((List.mem_insertionSort prioLE).mpr ha)

def c10E : Article := keyArticle "" "" "" "pubmed"

/-- C10, witnessed: two entirely empty-keyed records (with identical
content) are both retained. -/
theorem C10_empty_key_records_retained_witness :
    (deduplicate_articles fuzzFallbackScore [c10E, c10E]).countP emptyKeyFields = 2
    ∧ c10E ∈ deduplicate_articles fuzzFallbackScore [c10E, c10E] :=
  ⟨by rw [(C10_empty_key_records_retained fuzzFallbackScore [c10E, c10E]).1]; decide,
   (C10_empty_key_records_retained fuzzFallbackScore [c10E, c10E]).2 c10E
     (List.mem_cons_self _ _) (by decide)⟩

/-- C9 (amended): every adapter except biomodel — the RSS-based
medRxiv/bioRxiv adapter, the medRxiv search-page adapter, the PubMed
adapter, and the arXiv adapter — sets `corresponding_author` to the
Resolver's last-corresponding-author name for its author/affiliation
lists, the same value as `last_corresponding_author`.  The biomodel
adapter instead sets `corresponding_author` to the first author flagged
corresponding (falling back to the first author), while its
`last_corresponding_author` comes from the Resolver — so the two fields
can differ on biomodel records. -/
theorem C9_corresponding_author_fields (doiSearch doiSearch2 : String → Option String)
    (e : RssEntry) (d : SearchResultDiv) (x : PubmedArticleXml) (ax : ArxivEntry)
    (item : BiomodelItem) :
    (parse_rss_entry doiSearch e).corresponding_author
      = (extract_last_corresponding_author (e.authorNames.map PyAuthor.plainName) []).1
    ∧ (parse_rss_entry doiSearch e).corresponding_author
      = (parse_rss_entry doiSearch e).last_corresponding_author
    ∧ (parse_search_result doiSearch2 d).corresponding_author
      = (extract_last_corresponding_author (d.authorNames.map PyAuthor.plainName) []).1
    ∧ (parse_search_result doiSearch2 d).corresponding_author
      = (parse_search_result doiSearch2 d).last_corresponding_author
    ∧ (parse_pubmed_article x).corresponding_author
      = (extract_last_corresponding_author (x.authorNames.map PyAuthor.plainName)
          (x.affiliations.map PyAffil.plainName)).1
    ∧ (parse_pubmed_article x).corresponding_author
      = (parse_pubmed_article x).last_corresponding_author
    ∧ (parse_arxiv_entry ax).corresponding_author
      = (extract_last_corresponding_author (ax.authorNames.map PyAuthor.plainName) []).1
    ∧ (parse_arxiv_entry ax).corresponding_author
      = (parse_arxiv_entry ax).last_corresponding_author
    ∧ (parse_biomodel_article item).corresponding_author
      = biomodelCorrespondingAuthor item.authors
    ∧ (parse_biomodel_article item).last_corresponding_author
      = (extract_last_corresponding_author item.authors item.affiliations).1 :=
  ⟨rfl, rfl, rfl, rfl, rfl, rfl, rfl, rfl, rfl, rfl⟩

def twoCorrItem : BiomodelItem :=
  { doi := some "10.1101/two", nativeId := none, title := some "T",
    authors := [.record "Ann" "" "" true false, .record "Beth" "" "" true false],
    affiliations := [], abstract := none, published_at := none, url := none }

/-- C9 counterexample against the claim as stated: a biomodel item with
two authors both flagged corresponding.  The adapter's
`corresponding_author` is the first of them ("Ann"), while the
Resolver's last-corresponding-author — the value of
`last_corresponding_author` — is "Beth". -/
theorem C9_counterexample :
    (parse_biomodel_article twoCorrItem).corresponding_author = "Ann"
    ∧ (parse_biomodel_article twoCorrItem).last_corresponding_author = "Beth"
    ∧ ¬ ((parse_biomodel_article twoCorrItem).corresponding_author
        = (parse_biomodel_article twoCorrItem).last_corresponding_author) := by
  refine ⟨by decide, by decide, by decide⟩

end Manuals
